import Mathlib

/-!
Verification of the RunPod Real-ESRGAN video-enhancement handler
(`handler.py`): a sequential pipeline Fetch → Upscale → optional Face
Restore → optional Audio Enhance → Publish, run inside a temporary
workspace directory.

The embedding models external effects (HTTP transfer, subprocesses, the
GFPGAN inference call, the filesystem size query) as explicit oracles
passed into each function, and an uncaught Python exception as the
`Except.error` branch carrying the exception message — the serverless
runtime that invokes the handler surfaces such an exception as the job's
`error` result.  Wall-clock duration (`duration_secs` in the success
record) is not modelled.
-/

/-- Outcome of a `subprocess.run(cmd, capture_output=True, text=True,
timeout=T)` call: either the process completed with an exit code and a
captured stderr, or the timeout expired (which raises
`subprocess.TimeoutExpired` in the caller). -/
inductive ProcResult where
  | completed (returncode : Int) (stderr : String)
  | timedOut
deriving Repr, DecidableEq

/-- Constant `REALESRGAN_MODEL = "realesr-general-x4v3"` (handler.py line 14). -/
def REALESRGAN_MODEL : String := "realesr-general-x4v3"

/-- Index of the last occurrence of `c` in `cs` (Python `str.rfind`,
restricted to the found case). -/
def rfindIdx (cs : List Char) (c : Char) : Option Nat :=
  match cs with
  | [] => none
  | a :: rest =>
    match rfindIdx rest c with
    | some i => some (i + 1)
    | none => if a = c then some 0 else none

/-- Split a character list at every occurrence of `c` (Python
`str.split(c)` on the character level: adjacent separators yield empty
groups, and the empty input yields one empty group). -/
def splitOnChar (c : Char) : List Char → List (List Char)
  | [] => [[]]
  | a :: rest =>
    let r := splitOnChar c rest
    if a = c then [] :: r
    else
      match r with
      | [] => [[a]]
      | g :: gs => (a :: g) :: gs

/-- The last nonempty `/`-separated component of a path string:
`pathlib.PurePath(s).name`. -/
def pathName (s : String) : String :=
  String.mk (((splitOnChar '/' s.toList).filter (fun p => p ≠ [])).getLastD [])

/-- Python `pathlib.PurePath(name).suffix` for a file name: the substring from
the last dot, provided that dot is neither the first nor the last
character; otherwise the empty string (CPython: `i = name.rfind('.');
name[i:] if 0 < i < len(name) - 1 else ''`). -/
def pySuffix (name : String) : String :=
  let cs := name.toList
  match rfindIdx cs '.' with
  | none => ""
  | some i => if 0 < i ∧ i < cs.length - 1 then String.mk (cs.drop i) else ""

/-- Python `Path(video_url).suffix or ".mp4"` (handler.py line 135): the
extension of the URL's last component, defaulting to `".mp4"` when the
suffix is empty (Python `or` on strings). -/
def inputExt (video_url : String) : String :=
  let sfx := pySuffix (pathName video_url)
  if sfx = "" then ".mp4" else sfx

/-- Python `upload_url.split('?')[0]` (handler.py line 102): the prefix of the
string before its first `'?'`, or the whole string when no `'?'`
occurs. -/
def stripQuery (s : String) : String :=
  String.mk (s.toList.takeWhile (fun c => c ≠ '?'))

/-- A decoded video as the Face Restore stage sees it: the container
metadata read from `cv2.VideoCapture` (frame rate, width, height) and the
sequence of decoded frames, with frames of an abstract pixel type `α`. -/
structure Video (α : Type) where
  fps : Nat
  width : Nat
  height : Nat
  frames : List α
deriving Repr, DecidableEq

/-- Result of one `restore_faces_video` run: the produced output video
(or the message of the exception that escaped), the final value of
`frame_count`, and whether `cap.release()` / `out.release()` were
executed. -/
structure RestoreOutcome (α : Type) where
  result : Except String (Video α)
  frameCount : Nat
  capReleased : Bool
  outReleased : Bool

/-- The `while True` frame loop of `restore_faces_video` (handler.py
lines 47–57): decode the next frame, run `restorer.enhance` on it, write
the restored frame to the encoder, and increment `frame_count`; if the
inference call raises, the loop is abandoned with the exception.  Returns
the frames written so far, the frame count, and the escaping exception
message if any. -/
def restoreLoop {α : Type} (enhance : α → Except String α) :
    List α → List α → Nat → List α × Nat × Option String
  | [], written, count => (written, count, none)
  | f :: rest, written, count =>
    match enhance f with
    | .error msg => (written, count, some msg)
    | .ok r => restoreLoop enhance rest (written ++ [r]) (count + 1)

/-- Function `restore_faces_video` (handler.py lines 25–62): open the input video,
copy its fps/width/height onto a `cv2.VideoWriter`, run the frame loop,
and only then — on the straight-line path after the loop — call
`cap.release()` and `out.release()`.  There is no `try/finally`: when an
inference call raises, the exception propagates before either release
call runs. -/
def restore_faces_video {α : Type} (enhance : α → Except String α)
    (input : Video α) : RestoreOutcome α :=
  match restoreLoop enhance input.frames [] 0 with
  | (written, count, none) =>
    { result := .ok ⟨input.fps, input.width, input.height, written⟩
      frameCount := count
      capReleased := true
      outReleased := true }
  | (_, count, some msg) =>
    { result := .error msg
      frameCount := count
      capReleased := false
      outReleased := false }

/-- Function `enhance_audio` (handler.py lines 64–79): run the ffmpeg filter
subprocess; on a non-zero exit code log a warning and return the
unmodified `input_path` (soft fail); on exit code 0 return `output_path`.
A `subprocess.TimeoutExpired` raised by `subprocess.run` is not caught
and propagates. -/
def enhance_audio (input_path output_path : String) (proc : ProcResult) :
    Except String String :=
  match proc with
  | .timedOut => .error "subprocess.TimeoutExpired: ffmpeg timed out after 3600 seconds"
  | .completed rc _ => if rc ≠ 0 then .ok input_path else .ok output_path

/-- The argument vector built by `run_realesrgan` (handler.py lines
82–89). -/
def realesrgan_cmd (input_path output_path : String) (scale : Int)
    (model : String) : List String :=
  ["realesrgan-ncnn-vulkan", "-i", input_path, "-o", output_path,
   "-n", model, "-s", toString scale, "-f", "mp4"]

/-- Function `run_realesrgan` (handler.py lines 81–94): run the upscaler
subprocess; raise `RuntimeError("Real-ESRGAN failed: " + stderr)` on a
non-zero exit, return `output_path` on success.  A timeout propagates as
`subprocess.TimeoutExpired`.  No validation of `scale` is performed. -/
def run_realesrgan (input_path output_path : String) (scale : Int)
    (model : String) (proc : ProcResult) : Except String String :=
  let _cmd := realesrgan_cmd input_path output_path scale model
  match proc with
  | .timedOut => .error "subprocess.TimeoutExpired: realesrgan-ncnn-vulkan timed out after 7200 seconds"
  | .completed rc stderr =>
    if rc ≠ 0 then .error ("Real-ESRGAN failed: " ++ stderr)
    else .ok output_path

/-- Function `upload_result` (handler.py lines 96–106): when `upload_url` is a
nonempty string, PUT the artifact there (`put` is the transfer's outcome;
`raise_for_status` propagates a failure) and return the URL with its
query string removed; otherwise return the local descriptor
`file://<path> (<size> bytes)` where `size = os.path.getsize(path)`. -/
def upload_result (file_path upload_url : String)
    (put : Except String Unit) (getsize : String → Nat) :
    Except String String :=
  if upload_url ≠ "" then
    match put with
    | .error e => .error e
    | .ok _ => .ok (stripQuery upload_url)
  else
    .ok ("file://" ++ file_path ++ " (" ++ toString (getsize file_path) ++ " bytes)")

/-- The stages a job execution invokes, in order, with the arguments that
identify the invocation: downloading the input, running the upscaler
subprocess (with the scale and model it was given), the GFPGAN frame
loop, the ffmpeg audio filter, and the upload/describe step. -/
inductive StageCall where
  | fetch (url : String)
  | upscale (scale : Int) (model : String)
  | faceRestore
  | audioEnhance
  | publish (upload_url : String)
deriving Repr, DecidableEq

/-- The `job["input"]` dictionary: each field is `none` when the key is
absent (handler.py lines 123–129 read them with `.get` and defaults). -/
structure JobInput where
  video_url : Option String
  scale : Option Int := none
  model : Option String := none
  face_restore : Option Bool := none
  audio_enhance : Option Bool := none
  upload_url : Option String := none

/-- The external world a job execution interacts with: the download
outcome per URL, the upscaler and ffmpeg subprocess outcomes, the decoded
content of the upscaled file (what `cv2.VideoCapture` reads in Face
Restore), the per-frame GFPGAN inference call, the PUT transfer outcome,
and `os.path.getsize`. -/
structure World (α : Type) where
  fetch : String → Except String Unit
  upscaleProc : ProcResult
  upscaledVideo : Video α
  enhance : α → Except String α
  audioProc : ProcResult
  put : Except String Unit
  getsize : String → Nat

/-- The success record the handler returns (handler.py lines 158–164),
minus `duration_secs` (wall-clock time, outside the embedding). -/
structure JobResult where
  video_url : String
  scale : Int
  face_restore : Bool
  audio_enhance : Bool
deriving Repr, DecidableEq

/-- Everything observable about one handler execution: the returned
result (`Except.error` both for the early `{"error": ...}` return and for
an uncaught exception, which the serverless runtime surfaces as the job's
error), the stages invoked in order, whether the temporary workspace was
ever created, whether it still exists after the handler returns, and the
"current" artifact path at the moment Publish ran (if it ran). -/
structure HandlerOutcome where
  result : Except String JobResult
  invoked : List StageCall
  workspaceCreated : Bool
  workspaceExistsAfter : Bool
  finalArtifact : Option String
deriving Repr

/-- Outcome of a fatal stage exception inside the `with
tempfile.TemporaryDirectory()` block: the context manager still deletes
the workspace on the way out. -/
def erroredOutcome (e : String) (trace : List StageCall) : HandlerOutcome :=
  { result := .error e
    invoked := trace
    workspaceCreated := true
    workspaceExistsAfter := false
    finalArtifact := none }

/-- The final `upload_result` call and assembly of the success record
(handler.py lines 156–164). -/
def publishStep {α : Type} (current : String) (trace : List StageCall)
    (upload_url : String) (scale : Int) (face_restore audio_enhance : Bool)
    (w : World α) : HandlerOutcome :=
  match upload_result current upload_url w.put w.getsize with
  | .error e => erroredOutcome e (trace ++ [.publish upload_url])
  | .ok result_url =>
    { result := .ok ⟨result_url, scale, face_restore, audio_enhance⟩
      invoked := trace ++ [.publish upload_url]
      workspaceCreated := true
      workspaceExistsAfter := false
      finalArtifact := some current }

/-- The optional Audio Enhance stage (handler.py lines 152–154):
`current = enhance_audio(current, audio_path)` when the flag is set —
note the soft-fail inside `enhance_audio` keeps `current` unchanged,
while a timeout raises and aborts the job. -/
def audioStep {α : Type} (tmpdir current : String) (trace : List StageCall)
    (upload_url : String) (scale : Int) (face_restore audio_enhance : Bool)
    (w : World α) : HandlerOutcome :=
  if audio_enhance then
    match enhance_audio current (tmpdir ++ "/audio_enhanced.mp4") w.audioProc with
    | .error e => erroredOutcome e (trace ++ [.audioEnhance])
    | .ok newCurrent =>
      publishStep newCurrent (trace ++ [.audioEnhance]) upload_url scale
        face_restore audio_enhance w
  else
    publishStep current trace upload_url scale face_restore audio_enhance w

/-- The optional Face Restore stage (handler.py lines 146–149): run
`restore_faces_video` on the current (upscaled) artifact; an escaping
inference exception aborts the job, success moves `current` to
`restored.mp4`. -/
def faceStep {α : Type} (tmpdir current : String) (trace : List StageCall)
    (upload_url : String) (scale : Int) (face_restore audio_enhance : Bool)
    (w : World α) : HandlerOutcome :=
  if face_restore then
    match (restore_faces_video w.enhance w.upscaledVideo).result with
    | .error e => erroredOutcome e (trace ++ [.faceRestore])
    | .ok _ =>
      audioStep tmpdir (tmpdir ++ "/restored.mp4") (trace ++ [.faceRestore])
        upload_url scale face_restore audio_enhance w
  else
    audioStep tmpdir current trace upload_url scale face_restore audio_enhance w

/-- The body of the `with tempfile.TemporaryDirectory()` block
(handler.py lines 134–164), entered once `video_url` is known to be a
nonempty string: download, upscale, then the optional stages and
publish. -/
def handlerJob {α : Type} (tmpdir url : String) (inp : JobInput)
    (w : World α) : HandlerOutcome :=
  let scale := inp.scale.getD 4
  let model := inp.model.getD REALESRGAN_MODEL
  let face_restore := inp.face_restore.getD true
  let audio_enhance := inp.audio_enhance.getD true
  let upload_url := inp.upload_url.getD ""
  let input_path := tmpdir ++ "/input" ++ inputExt url
  match w.fetch url with
  | .error e => erroredOutcome e [.fetch url]
  | .ok _ =>
    let upscaled_path := tmpdir ++ "/upscaled.mp4"
    match run_realesrgan input_path upscaled_path scale model w.upscaleProc with
    | .error e => erroredOutcome e [.fetch url, .upscale scale model]
    | .ok current =>
      faceStep tmpdir current [.fetch url, .upscale scale model]
        upload_url scale face_restore audio_enhance w

/-- The early return for a missing or empty `video_url` (handler.py
lines 131–132): no workspace is created and no stage runs. -/
def missingUrlOutcome : HandlerOutcome :=
  { result := .error "video_url required"
    invoked := []
    workspaceCreated := false
    workspaceExistsAfter := false
    finalArtifact := none }

/-- Function `handler` (handler.py lines 108–164): reject a falsy `video_url`
(absent key or empty string) before any stage, otherwise run the pipeline
inside a temporary workspace that is recursively deleted on every exit
path. -/
def handler {α : Type} (tmpdir : String) (inp : JobInput) (w : World α) :
    HandlerOutcome :=
  match inp.video_url with
  | none => missingUrlOutcome
  | some url =>
    if url = "" then missingUrlOutcome
    else handlerJob tmpdir url inp w

/-- Whether an `Except` value is the success branch (an execution in
which no exception escaped). -/
def exceptOk {ε α : Type} : Except ε α → Bool
  | .ok _ => true
  | .error _ => false

lemma restoreLoop_ok {α : Type} (enhance : α → Except String α) :
    ∀ (frames written : List α) (count : Nat) (written2 : List α) (count2 : Nat),
      restoreLoop enhance frames written count = (written2, count2, none) →
      ∃ rs, written2 = written ++ rs ∧ count2 = count + frames.length ∧
        List.Forall₂ (fun f r => enhance f = .ok r) frames rs := by
  intro frames
  induction frames with
  | nil =>
    intro written count w2 c2 h
    simp only [restoreLoop, Prod.mk.injEq] at h
    exact ⟨[], by simp [h.1.symm], by simp [h.2.1.symm], List.Forall₂.nil⟩
  | cons f rest ih =>
    intro written count w2 c2 h
    unfold restoreLoop at h
    cases he : enhance f with
    | error msg => rw [he] at h; simp at h
    | ok r =>
      rw [he] at h
      obtain ⟨rs, h1, h2, h3⟩ := ih (written ++ [r]) (count + 1) w2 c2 h
      refine ⟨r :: rs, ?_, ?_, List.Forall₂.cons he h3⟩
      · simpa [List.append_assoc] using h1
      · simp only [List.length_cons] at h2 ⊢; omega

/-- C3 counterexample: with a one-frame video whose inference call
raises, `restore_faces_video` ends with neither `cap.release()` nor
`out.release()` executed — the release calls sit after the frame loop
with no `try/finally`, so the escaping exception skips them. -/
theorem restore_release_counterexample :
    (restore_faces_video (fun _ => (.error "CUDA error: device-side assert triggered" : Except String Nat))
        ⟨30, 64, 48, [0]⟩).capReleased = false ∧
    (restore_faces_video (fun _ => (.error "CUDA error: device-side assert triggered" : Except String Nat))
        ⟨30, 64, 48, [0]⟩).outReleased = false :=
  ⟨rfl, rfl⟩

/-- C3 (amended): the decoder and encoder are released exactly when the
frame loop completes without an inference exception; when an inference
call raises partway through, the exception propagates before either
release call, so neither resource is released. -/
theorem restore_release_iff_no_exception {α : Type}
    (enhance : α → Except String α) (v : Video α) :
    (restore_faces_video enhance v).capReleased
        = exceptOk (restore_faces_video enhance v).result ∧
    (restore_faces_video enhance v).outReleased
        = exceptOk (restore_faces_video enhance v).result := by
  unfold restore_faces_video
  rcases h : restoreLoop enhance v.frames [] 0 with ⟨w, c, o⟩
  cases o <;> simp [exceptOk]

/-- C4: whenever the Face Restore stage completes (returns an output
video), that output carries exactly the input video's frame rate, width,
and height — the `cv2.VideoWriter` is opened with the metadata read from
the input capture, and only frame pixel content differs. -/
theorem restore_preserves_metadata {α : Type}
    (enhance : α → Except String α) (v : Video α) (out : Video α)
    (h : (restore_faces_video enhance v).result = .ok out) :
    out.fps = v.fps ∧ out.width = v.width ∧ out.height = v.height := by
  unfold restore_faces_video at h
  rcases hl : restoreLoop enhance v.frames [] 0 with ⟨w, c, o⟩
  rw [hl] at h
  cases o with
  | none =>
    simp only [Except.ok.injEq] at h
    rw [← h]
    exact ⟨rfl, rfl, rfl⟩
  | some msg => simp at h

/-- A concrete stand-in for the per-frame inference call, used by the
witness runs: restores frame `n` to frame `n + 1`. -/
def incEnhance (n : Nat) : Except String Nat := .ok (n + 1)

/-- C4 witness: a concrete one-frame run through the stage. -/
theorem restore_preserves_metadata_witness :
    (restore_faces_video incEnhance ⟨30, 64, 48, [5]⟩).result
        = .ok ⟨30, 64, 48, [6]⟩ ∧
    ((Video.mk (α := Nat) 30 64 48 [6]).fps = (Video.mk (α := Nat) 30 64 48 [5]).fps ∧
     (Video.mk (α := Nat) 30 64 48 [6]).width = (Video.mk (α := Nat) 30 64 48 [5]).width ∧
     (Video.mk (α := Nat) 30 64 48 [6]).height = (Video.mk (α := Nat) 30 64 48 [5]).height) :=
  ⟨rfl, restore_preserves_metadata incEnhance ⟨30, 64, 48, [5]⟩ ⟨30, 64, 48, [6]⟩ rfl⟩

/-- C5: whenever the Face Restore stage completes, the output holds
exactly one restored frame per decoded input frame, in order (so the
frame counts agree, the final `frame_count` equals both, and no frame is
dropped or duplicated: frame `i` of the output is the restored image of
frame `i` of the input). -/
theorem restore_frame_count {α : Type}
    (enhance : α → Except String α) (v : Video α) (out : Video α)
    (h : (restore_faces_video enhance v).result = .ok out) :
    out.frames.length = v.frames.length ∧
    (restore_faces_video enhance v).frameCount = v.frames.length ∧
    List.Forall₂ (fun f r => enhance f = .ok r) v.frames out.frames := by
  unfold restore_faces_video at h ⊢
  rcases hl : restoreLoop enhance v.frames [] 0 with ⟨w, c, o⟩
  rw [hl] at h
  cases o with
  | none =>
    obtain ⟨rs, hw, hc, hall⟩ := restoreLoop_ok enhance v.frames [] 0 w c hl
    simp only [Except.ok.injEq] at h
    rw [← h]
    simp only [List.nil_append] at hw
    subst hw
    refine ⟨List.Forall₂.length_eq hall ▸ rfl, ?_, hall⟩
    simp [hc]
  | some msg => simp at h

/-- C5 witness: a concrete two-frame run through the stage. -/
theorem restore_frame_count_witness :
    (restore_faces_video incEnhance ⟨30, 64, 48, [5, 9]⟩).result
        = .ok ⟨30, 64, 48, [6, 10]⟩ ∧
    ((Video.mk (α := Nat) 30 64 48 [6, 10]).frames.length
        = (Video.mk (α := Nat) 30 64 48 [5, 9]).frames.length ∧
     (restore_faces_video incEnhance ⟨30, 64, 48, [5, 9]⟩).frameCount
        = (Video.mk (α := Nat) 30 64 48 [5, 9]).frames.length ∧
     List.Forall₂ (fun f r => incEnhance f = .ok r)
       (Video.mk (α := Nat) 30 64 48 [5, 9]).frames
       (Video.mk (α := Nat) 30 64 48 [6, 10]).frames) :=
  ⟨rfl, restore_frame_count incEnhance ⟨30, 64, 48, [5, 9]⟩ ⟨30, 64, 48, [6, 10]⟩ rfl⟩

lemma upload_result_ok_of_put (cur u : String) (gs : String → Nat)
    (hu : u ≠ "") : upload_result cur u (.ok ()) gs = .ok (stripQuery u) := by
  simp [upload_result, hu]

lemma upload_result_local (cur : String) (put : Except String Unit)
    (gs : String → Nat) :
    upload_result cur "" put gs =
      .ok ("file://" ++ cur ++ " (" ++ toString (gs cur) ++ " bytes)") := by
  simp [upload_result]

lemma publishStep_invoked {α : Type} (cur : String) (trace : List StageCall)
    (u : String) (s : Int) (fr ae : Bool) (w : World α) :
    (publishStep cur trace u s fr ae w).invoked = trace ++ [.publish u] := by
  unfold publishStep
  split <;> rfl

lemma publishStep_workspace {α : Type} (cur : String) (trace : List StageCall)
    (u : String) (s : Int) (fr ae : Bool) (w : World α) :
    (publishStep cur trace u s fr ae w).workspaceExistsAfter = false := by
  unfold publishStep
  split <;> rfl

lemma publishStep_ok {α : Type} (cur : String) (trace : List StageCall)
    (u : String) (s : Int) (fr ae : Bool) (w : World α) (r : String)
    (h : upload_result cur u w.put w.getsize = .ok r) :
    publishStep cur trace u s fr ae w =
      { result := .ok ⟨r, s, fr, ae⟩
        invoked := trace ++ [.publish u]
        workspaceCreated := true
        workspaceExistsAfter := false
        finalArtifact := some cur } := by
  unfold publishStep
  rw [h]

lemma publishStep_error {α : Type} (cur : String) (trace : List StageCall)
    (u : String) (s : Int) (fr ae : Bool) (w : World α) (e : String)
    (h : upload_result cur u w.put w.getsize = .error e) :
    publishStep cur trace u s fr ae w = erroredOutcome e (trace ++ [.publish u]) := by
  unfold publishStep
  rw [h]

lemma audioStep_skip {α : Type} (tmpdir cur : String) (trace : List StageCall)
    (u : String) (s : Int) (fr : Bool) (w : World α) :
    audioStep tmpdir cur trace u s fr false w =
      publishStep cur trace u s fr false w := by
  simp [audioStep]

lemma audioStep_soft_fail {α : Type} (tmpdir cur : String)
    (trace : List StageCall) (u : String) (s : Int) (fr : Bool) (w : World α)
    (rc : Int) (es : String) (hp : w.audioProc = .completed rc es) (hrc : rc ≠ 0) :
    audioStep tmpdir cur trace u s fr true w =
      publishStep cur (trace ++ [.audioEnhance]) u s fr true w := by
  simp [audioStep, enhance_audio, hp, hrc]

lemma audioStep_success {α : Type} (tmpdir cur : String)
    (trace : List StageCall) (u : String) (s : Int) (fr : Bool) (w : World α)
    (es : String) (hp : w.audioProc = .completed 0 es) :
    audioStep tmpdir cur trace u s fr true w =
      publishStep (tmpdir ++ "/audio_enhanced.mp4") (trace ++ [.audioEnhance])
        u s fr true w := by
  simp [audioStep, enhance_audio, hp]

lemma audioStep_timeout {α : Type} (tmpdir cur : String)
    (trace : List StageCall) (u : String) (s : Int) (fr : Bool) (w : World α)
    (hp : w.audioProc = .timedOut) :
    audioStep tmpdir cur trace u s fr true w =
      erroredOutcome "subprocess.TimeoutExpired: ffmpeg timed out after 3600 seconds"
        (trace ++ [.audioEnhance]) := by
  simp [audioStep, enhance_audio, hp]

lemma audioStep_workspace {α : Type} (tmpdir cur : String)
    (trace : List StageCall) (u : String) (s : Int) (fr ae : Bool) (w : World α) :
    (audioStep tmpdir cur trace u s fr ae w).workspaceExistsAfter = false := by
  unfold audioStep
  split
  · split
    · rfl
    · apply publishStep_workspace
  · apply publishStep_workspace

lemma faceStep_skip {α : Type} (tmpdir cur : String) (trace : List StageCall)
    (u : String) (s : Int) (ae : Bool) (w : World α) :
    faceStep tmpdir cur trace u s false ae w =
      audioStep tmpdir cur trace u s false ae w := by
  simp [faceStep]

lemma faceStep_ok {α : Type} (tmpdir cur : String) (trace : List StageCall)
    (u : String) (s : Int) (ae : Bool) (w : World α) (out : Video α)
    (h : (restore_faces_video w.enhance w.upscaledVideo).result = .ok out) :
    faceStep tmpdir cur trace u s true ae w =
      audioStep tmpdir (tmpdir ++ "/restored.mp4") (trace ++ [.faceRestore])
        u s true ae w := by
  simp [faceStep, h]

lemma faceStep_error {α : Type} (tmpdir cur : String) (trace : List StageCall)
    (u : String) (s : Int) (ae : Bool) (w : World α) (e : String)
    (h : (restore_faces_video w.enhance w.upscaledVideo).result = .error e) :
    faceStep tmpdir cur trace u s true ae w =
      erroredOutcome e (trace ++ [.faceRestore]) := by
  simp [faceStep, h]

lemma faceStep_workspace {α : Type} (tmpdir cur : String)
    (trace : List StageCall) (u : String) (s : Int) (fr ae : Bool) (w : World α) :
    (faceStep tmpdir cur trace u s fr ae w).workspaceExistsAfter = false := by
  unfold faceStep
  split
  · split
    · rfl
    · apply audioStep_workspace
  · apply audioStep_workspace

lemma handler_valid_url {α : Type} (tmpdir : String) (inp : JobInput)
    (url : String) (w : World α) (hurl : inp.video_url = some url)
    (hne : url ≠ "") :
    handler tmpdir inp w = handlerJob tmpdir url inp w := by
  unfold handler
  rw [hurl]
  simp [hne]

lemma handlerJob_fetch_error {α : Type} (tmpdir url : String)
    (inp : JobInput) (w : World α) (e : String)
    (hf : w.fetch url = .error e) :
    handlerJob tmpdir url inp w = erroredOutcome e [.fetch url] := by
  unfold handlerJob
  rw [hf]

lemma handlerJob_upscale_error {α : Type} (tmpdir url : String)
    (inp : JobInput) (w : World α) (rc : Int) (stderr : String)
    (hf : w.fetch url = .ok ()) (hp : w.upscaleProc = .completed rc stderr)
    (hrc : rc ≠ 0) :
    handlerJob tmpdir url inp w =
      erroredOutcome ("Real-ESRGAN failed: " ++ stderr)
        [.fetch url, .upscale (inp.scale.getD 4) (inp.model.getD REALESRGAN_MODEL)] := by
  unfold handlerJob
  rw [hf]
  simp [run_realesrgan, hp, hrc]

lemma handlerJob_upscale_timeout {α : Type} (tmpdir url : String)
    (inp : JobInput) (w : World α)
    (hf : w.fetch url = .ok ()) (hp : w.upscaleProc = .timedOut) :
    handlerJob tmpdir url inp w =
      erroredOutcome "subprocess.TimeoutExpired: realesrgan-ncnn-vulkan timed out after 7200 seconds"
        [.fetch url, .upscale (inp.scale.getD 4) (inp.model.getD REALESRGAN_MODEL)] := by
  unfold handlerJob
  rw [hf]
  simp [run_realesrgan, hp]

lemma handlerJob_upscale_ok {α : Type} (tmpdir url : String)
    (inp : JobInput) (w : World α) (stderr : String)
    (hf : w.fetch url = .ok ()) (hp : w.upscaleProc = .completed 0 stderr) :
    handlerJob tmpdir url inp w =
      faceStep tmpdir (tmpdir ++ "/upscaled.mp4")
        [.fetch url, .upscale (inp.scale.getD 4) (inp.model.getD REALESRGAN_MODEL)]
        (inp.upload_url.getD "") (inp.scale.getD 4)
        (inp.face_restore.getD true) (inp.audio_enhance.getD true) w := by
  unfold handlerJob
  rw [hf]
  simp [run_realesrgan, hp]

/-- C6: the per-job workspace does not survive the handler: on every
exit path — early rejection (no workspace was ever created), a fatal
stage exception, or successful completion — the temporary directory is
gone by the time the handler returns, because the whole pipeline body
runs inside the `with tempfile.TemporaryDirectory()` scope. -/
theorem handler_workspace_deleted {α : Type} (tmpdir : String)
    (inp : JobInput) (w : World α) :
    (handler tmpdir inp w).workspaceExistsAfter = false := by
  unfold handler
  cases hurl : inp.video_url with
  | none => rfl
  | some url =>
    by_cases hne : url = ""
    · simp [hne, missingUrlOutcome]
    · simp only [hne, if_false]
      unfold handlerJob
      cases hf : w.fetch url with
      | error e => rfl
      | ok _ =>
        cases hp : w.upscaleProc with
        | timedOut => simp [run_realesrgan, erroredOutcome]
        | completed rc stderr =>
          by_cases hrc : rc = 0
          · simp [run_realesrgan, hrc, faceStep_workspace]
          · simp [run_realesrgan, hrc, erroredOutcome]

lemma upload_result_put_error (cur u : String) (gs : String → Nat)
    (e : String) (hu : u ≠ "") :
    upload_result cur u (.error e) gs = .error e := by
  simp [upload_result, hu]

/-- C1: every fatal stage short-circuits the job.  If the download
raises, only Fetch ran; if the upscaler subprocess exits non-zero, the
job's result is the `RuntimeError` message `"Real-ESRGAN failed: ..."`
and neither Face Restore, Audio Enhance, nor Publish is invoked; if a
face-restoration inference call raises, the job ends with that message
and neither Audio Enhance nor Publish is invoked; if the upload raises,
the job's result is that error.  In each case the error message reaches
the job result unmodified. -/
theorem fatal_stage_short_circuit {α : Type} (tmpdir : String)
    (inp : JobInput) (url : String) (w : World α)
    (hurl : inp.video_url = some url) (hne : url ≠ "") :
    (∀ e, w.fetch url = .error e →
      (handler tmpdir inp w).result = .error e ∧
      (handler tmpdir inp w).invoked = [.fetch url]) ∧
    (∀ rc stderr, w.fetch url = .ok () → w.upscaleProc = .completed rc stderr →
      rc ≠ 0 →
      (handler tmpdir inp w).result = .error ("Real-ESRGAN failed: " ++ stderr) ∧
      (handler tmpdir inp w).invoked =
        [.fetch url, .upscale (inp.scale.getD 4) (inp.model.getD REALESRGAN_MODEL)]) ∧
    (∀ e stderr, w.fetch url = .ok () → w.upscaleProc = .completed 0 stderr →
      inp.face_restore.getD true = true →
      (restore_faces_video w.enhance w.upscaledVideo).result = .error e →
      (handler tmpdir inp w).result = .error e ∧
      (handler tmpdir inp w).invoked =
        [.fetch url, .upscale (inp.scale.getD 4) (inp.model.getD REALESRGAN_MODEL),
         .faceRestore]) ∧
    (∀ e stderr, w.fetch url = .ok () → w.upscaleProc = .completed 0 stderr →
      (inp.face_restore.getD true = true →
        exceptOk (restore_faces_video w.enhance w.upscaledVideo).result = true) →
      (inp.audio_enhance.getD true = true → w.audioProc ≠ .timedOut) →
      inp.upload_url.getD "" ≠ "" → w.put = .error e →
      (handler tmpdir inp w).result = .error e) := by
  have hh : handler tmpdir inp w = handlerJob tmpdir url inp w :=
    handler_valid_url tmpdir inp url w hurl hne
  refine ⟨?_, ?_, ?_, ?_⟩
  · intro e hf
    rw [hh, handlerJob_fetch_error tmpdir url inp w e hf]
    exact ⟨rfl, rfl⟩
  · intro rc stderr hf hp hrc
    rw [hh, handlerJob_upscale_error tmpdir url inp w rc stderr hf hp hrc]
    exact ⟨rfl, rfl⟩
  · intro e stderr hf hp hfr hres
    rw [hh, handlerJob_upscale_ok tmpdir url inp w stderr hf hp, hfr,
      faceStep_error _ _ _ _ _ _ w e hres]
    exact ⟨rfl, rfl⟩
  · intro e stderr hf hp hface haud hu hput
    rw [hh, handlerJob_upscale_ok tmpdir url inp w stderr hf hp]
    have hupload : ∀ gs, upload_result (tmpdir ++ "/audio_enhanced.mp4")
        (inp.upload_url.getD "") w.put gs = .error e ∧
        ∀ cur, upload_result cur (inp.upload_url.getD "") w.put gs = .error e := by
      intro gs
      rw [hput]
      exact ⟨upload_result_put_error _ _ _ _ hu,
        fun cur => upload_result_put_error _ _ _ _ hu⟩
    have hpub : ∀ cur trace,
        (publishStep cur trace (inp.upload_url.getD "") (inp.scale.getD 4)
          (inp.face_restore.getD true) (inp.audio_enhance.getD true) w).result
          = .error e := by
      intro cur trace
      rw [publishStep_error _ _ _ _ _ _ w e ((hupload w.getsize).2 cur)]
      rfl
    have haudio : ∀ cur trace,
        (audioStep tmpdir cur trace (inp.upload_url.getD "") (inp.scale.getD 4)
          (inp.face_restore.getD true) (inp.audio_enhance.getD true) w).result
          = .error e := by
      intro cur trace
      cases hae : inp.audio_enhance.getD true with
      | false => rw [hae] at hpub; rw [audioStep_skip]; exact hpub cur trace
      | true =>
        rw [hae] at hpub
        cases hap : w.audioProc with
        | timedOut => exact absurd hap (haud hae)
        | completed rc es =>
          by_cases hrc : rc = 0
          · subst hrc
            rw [audioStep_success tmpdir cur trace _ _ _ w es hap]
            exact hpub _ _
          · rw [audioStep_soft_fail tmpdir cur trace _ _ _ w rc es hap hrc]
            exact hpub _ _
    cases hfr : inp.face_restore.getD true with
    | false => rw [hfr] at haudio; rw [faceStep_skip]; exact haudio _ _
    | true =>
      rw [hfr] at haudio
      have hok := hface hfr
      cases hres : (restore_faces_video w.enhance w.upscaledVideo).result with
      | error e2 => rw [hres] at hok; simp [exceptOk] at hok
      | ok out =>
        rw [faceStep_ok _ _ _ _ _ _ w out hres]
        exact haudio _ _

/-- The external world of the C1 witness run: the upscaler subprocess
exits non-zero while everything else would succeed. -/
def c1World : World Nat :=
  { fetch := fun _ => .ok ()
    upscaleProc := .completed 1 "vulkan device not found"
    upscaledVideo := ⟨30, 64, 48, []⟩
    enhance := fun n => .ok n
    audioProc := .completed 0 ""
    put := .ok ()
    getsize := fun _ => 9 }

/-- The job input of the C1 witness run: only `video_url` supplied. -/
def c1Input : JobInput := { video_url := some "https://x/in.mp4" }

/-- C1 witness: with the upscaler failing, the concrete job ends in the
`RuntimeError` message and only Fetch and Upscale ever ran. -/
theorem fatal_stage_short_circuit_witness :
    (handler "/tmp/job" c1Input c1World).result =
      .error "Real-ESRGAN failed: vulkan device not found" ∧
    (handler "/tmp/job" c1Input c1World).invoked =
      [.fetch "https://x/in.mp4", .upscale 4 REALESRGAN_MODEL] :=
  (fatal_stage_short_circuit "/tmp/job" c1Input "https://x/in.mp4" c1World rfl
    (by decide)).2.1 1 "vulkan device not found" rfl rfl (by decide)

lemma publishStep_success {α : Type} (cur : String) (trace : List StageCall)
    (u : String) (s : Int) (fr ae : Bool) (w : World α)
    (hput : u ≠ "" → w.put = .ok ()) :
    ∃ r, (publishStep cur trace u s fr ae w).result = .ok r ∧
      (publishStep cur trace u s fr ae w).finalArtifact = some cur := by
  by_cases hu : u = ""
  · subst hu
    rw [publishStep_ok _ _ _ _ _ _ w _ (upload_result_local cur w.put w.getsize)]
    exact ⟨_, rfl, rfl⟩
  · rw [publishStep_ok _ _ _ _ _ _ w _
      (by rw [hput hu]; exact upload_result_ok_of_put cur u w.getsize hu)]
    exact ⟨_, rfl, rfl⟩

/-- C2: when the ffmpeg audio-filter subprocess exits non-zero,
`enhance_audio` hands back the unmodified input path instead of the
output path, the pipeline carries on with that pre-enhancement artifact
(the restored or upscaled file), and the job still completes with a
success record. -/
theorem audio_soft_fail {α : Type} (tmpdir : String) (inp : JobInput)
    (url stderr es : String) (rc : Int) (w : World α)
    (hurl : inp.video_url = some url) (hne : url ≠ "")
    (hf : w.fetch url = .ok ()) (hp : w.upscaleProc = .completed 0 stderr)
    (hface : inp.face_restore.getD true = true →
      exceptOk (restore_faces_video w.enhance w.upscaledVideo).result = true)
    (hae : inp.audio_enhance.getD true = true)
    (hap : w.audioProc = .completed rc es) (hrc : rc ≠ 0)
    (hput : inp.upload_url.getD "" ≠ "" → w.put = .ok ()) :
    (∀ p q, enhance_audio p q (.completed rc es) = .ok p) ∧
    (∃ r : JobResult, (handler tmpdir inp w).result = .ok r) ∧
    (handler tmpdir inp w).finalArtifact =
      some (if inp.face_restore.getD true then tmpdir ++ "/restored.mp4"
            else tmpdir ++ "/upscaled.mp4") := by
  refine ⟨fun p q => by simp [enhance_audio, hrc], ?_⟩
  rw [handler_valid_url tmpdir inp url w hurl hne,
    handlerJob_upscale_ok tmpdir url inp w stderr hf hp]
  cases hfr : inp.face_restore.getD true with
  | false =>
    rw [faceStep_skip, hae,
      audioStep_soft_fail tmpdir _ _ _ _ _ w rc es hap hrc]
    obtain ⟨r, hr, hfa⟩ := publishStep_success _ _ _ _ _ _ w hput
    exact ⟨⟨r, hr⟩, by rw [hfa]; simp⟩
  | true =>
    have hok := hface hfr
    cases hres : (restore_faces_video w.enhance w.upscaledVideo).result with
    | error e2 => rw [hres] at hok; simp [exceptOk] at hok
    | ok out =>
      rw [faceStep_ok _ _ _ _ _ _ w out hres, hae,
        audioStep_soft_fail tmpdir _ _ _ _ _ w rc es hap hrc]
      obtain ⟨r, hr, hfa⟩ := publishStep_success _ _ _ _ _ _ w hput
      exact ⟨⟨r, hr⟩, by rw [hfa]; simp⟩

/-- The external world of the C2 witness run: everything succeeds except
the ffmpeg audio filter, which exits with code 1. -/
def c2World : World Nat :=
  { fetch := fun _ => .ok ()
    upscaleProc := .completed 0 ""
    upscaledVideo := ⟨30, 64, 48, [1]⟩
    enhance := fun n => .ok (n + 1)
    audioProc := .completed 1 "no audio stream"
    put := .ok ()
    getsize := fun _ => 11 }

/-- The job input of the C2 witness run. -/
def c2Input : JobInput := { video_url := some "https://x/in.mp4" }

/-- C2 witness: with the audio filter failing, the concrete job still
succeeds and publishes the face-restored (pre-audio) artifact. -/
theorem audio_soft_fail_witness :
    enhance_audio "/tmp/job/restored.mp4" "/tmp/job/audio_enhanced.mp4"
      (.completed 1 "no audio stream") = .ok "/tmp/job/restored.mp4" ∧
    (∃ r : JobResult, (handler "/tmp/job" c2Input c2World).result = .ok r) ∧
    (handler "/tmp/job" c2Input c2World).finalArtifact =
      some "/tmp/job/restored.mp4" := by
  have h := audio_soft_fail "/tmp/job" c2Input "https://x/in.mp4" ""
    "no audio stream" 1 c2World rfl (by decide) rfl rfl (fun _ => rfl) rfl rfl
    (by decide) (fun hcon => absurd rfl hcon)
  exact ⟨h.1 "/tmp/job/restored.mp4" "/tmp/job/audio_enhanced.mp4", h.2.1,
    by have h3 := h.2.2; simpa using h3⟩

lemma audioStep_invoked_prefix {α : Type} (tmpdir cur : String)
    (trace : List StageCall) (u : String) (s : Int) (fr ae : Bool)
    (w : World α) :
    ∃ rest, (audioStep tmpdir cur trace u s fr ae w).invoked = trace ++ rest := by
  unfold audioStep
  split
  · split
    · exact ⟨[.audioEnhance], rfl⟩
    · exact ⟨[.audioEnhance, .publish u],
        by rw [publishStep_invoked, List.append_assoc]; rfl⟩
  · exact ⟨[.publish u], publishStep_invoked _ _ _ _ _ _ w⟩

lemma faceStep_invoked_prefix {α : Type} (tmpdir cur : String)
    (trace : List StageCall) (u : String) (s : Int) (fr ae : Bool)
    (w : World α) :
    ∃ rest, (faceStep tmpdir cur trace u s fr ae w).invoked = trace ++ rest := by
  unfold faceStep
  split
  · split
    · exact ⟨[.faceRestore], rfl⟩
    · obtain ⟨rest, hr⟩ := audioStep_invoked_prefix tmpdir
        (tmpdir ++ "/restored.mp4") (trace ++ [.faceRestore]) u s fr ae w
      exact ⟨[.faceRestore] ++ rest, by rw [hr, List.append_assoc]⟩
  · exact audioStep_invoked_prefix tmpdir cur trace u s fr ae w

/-- The external world of the C7 counterexample run: every external call
succeeds, so the subprocess accepts whatever scale it is handed. -/
def c7World : World Nat :=
  { fetch := fun _ => .ok ()
    upscaleProc := .completed 0 ""
    upscaledVideo := ⟨30, 64, 48, []⟩
    enhance := fun n => .ok n
    audioProc := .completed 0 ""
    put := .ok ()
    getsize := fun _ => 7 }

/-- The job input of the C7 counterexample run: `scale = 3`, outside the
domain the spec says is validated. -/
def c7Input : JobInput :=
  { video_url := some "https://x/test.mp4"
    scale := some 3
    face_restore := some false
    audio_enhance := some false }

/-- C7 counterexample: a job with `scale = 3` is not rejected anywhere —
the upscaler is invoked with scale 3 and the job completes successfully,
echoing `scale = 3` in its result. -/
theorem scale_validation_counterexample :
    StageCall.upscale 3 REALESRGAN_MODEL ∈
      (handler "/tmp/job" c7Input c7World).invoked ∧
    (handler "/tmp/job" c7Input c7World).result =
      .ok ⟨"file:///tmp/job/upscaled.mp4 (7 bytes)", 3, false, false⟩ := by
  constructor
  · have h : (handler "/tmp/job" c7Input c7World).invoked =
        [.fetch "https://x/test.mp4", .upscale 3 REALESRGAN_MODEL, .publish ""] :=
      rfl
    rw [h]
    simp
  · rfl

/-- C7 (amended): neither `run_realesrgan` nor the handler validates the
scale factor.  Whatever integer the job supplies (default 4) is rendered
into the subprocess argument vector after `"-s"` and the upscaler is
invoked with it; the stage accepts any scale when the subprocess exits
0. -/
theorem scale_passed_unvalidated {α : Type} (tmpdir : String)
    (inp : JobInput) (url : String) (w : World α)
    (hurl : inp.video_url = some url) (hne : url ≠ "")
    (hf : w.fetch url = .ok ()) :
    (∀ ip op model stderr,
      run_realesrgan ip op (inp.scale.getD 4) model (.completed 0 stderr) = .ok op) ∧
    (∀ ip op model,
      (realesrgan_cmd ip op (inp.scale.getD 4) model).getD 7 "" = "-s" ∧
      (realesrgan_cmd ip op (inp.scale.getD 4) model).getD 8 ""
        = toString (inp.scale.getD 4)) ∧
    StageCall.upscale (inp.scale.getD 4) (inp.model.getD REALESRGAN_MODEL) ∈
      (handler tmpdir inp w).invoked := by
  refine ⟨fun ip op model stderr => by simp [run_realesrgan],
    fun ip op model => ⟨rfl, rfl⟩, ?_⟩
  rw [handler_valid_url tmpdir inp url w hurl hne]
  cases hp : w.upscaleProc with
  | timedOut =>
    rw [handlerJob_upscale_timeout tmpdir url inp w hf hp]
    simp [erroredOutcome]
  | completed rc stderr =>
    by_cases hrc : rc = 0
    · subst hrc
      rw [handlerJob_upscale_ok tmpdir url inp w stderr hf hp]
      obtain ⟨rest, hr⟩ := faceStep_invoked_prefix tmpdir
        (tmpdir ++ "/upscaled.mp4")
        [.fetch url, .upscale (inp.scale.getD 4) (inp.model.getD REALESRGAN_MODEL)]
        (inp.upload_url.getD "") (inp.scale.getD 4)
        (inp.face_restore.getD true) (inp.audio_enhance.getD true) w
      rw [hr]
      simp
    · rw [handlerJob_upscale_error tmpdir url inp w rc stderr hf hp hrc]
      simp [erroredOutcome]

/-- C7 witness for the amended claim: a concrete job with `scale = 3`
reaches the upscaler unchanged. -/
theorem scale_passed_unvalidated_witness :
    run_realesrgan "/tmp/job/input.mp4" "/tmp/job/upscaled.mp4" 3
      REALESRGAN_MODEL (.completed 0 "") = .ok "/tmp/job/upscaled.mp4" ∧
    (realesrgan_cmd "/tmp/job/input.mp4" "/tmp/job/upscaled.mp4" 3
      REALESRGAN_MODEL).getD 8 "" = "3" ∧
    StageCall.upscale 3 REALESRGAN_MODEL ∈
      (handler "/tmp/job" c7Input c7World).invoked := by
  have h := scale_passed_unvalidated "/tmp/job" c7Input "https://x/test.mp4"
    c7World rfl (by decide) rfl
  exact ⟨h.1 "/tmp/job/input.mp4" "/tmp/job/upscaled.mp4" REALESRGAN_MODEL "",
    (h.2.1 "/tmp/job/input.mp4" "/tmp/job/upscaled.mp4" REALESRGAN_MODEL).2,
    h.2.2⟩

/-- C8: a job whose input has no `video_url` key, or an empty one, is
rejected with exactly `{"error": "video_url required"}` before any stage
runs: the invocation trace is empty, no workspace is created, and no
artifact is produced. -/
theorem missing_video_url_rejected {α : Type} (tmpdir : String)
    (inp : JobInput) (w : World α)
    (h : inp.video_url = none ∨ inp.video_url = some "") :
    handler tmpdir inp w =
      { result := .error "video_url required"
        invoked := []
        workspaceCreated := false
        workspaceExistsAfter := false
        finalArtifact := none } := by
  rcases h with h | h <;> simp [handler, h, missingUrlOutcome]

/-- C8 witness: concrete runs with the key absent and with an empty
URL. -/
theorem missing_video_url_rejected_witness :
    handler "/tmp/job" { video_url := none } c7World =
      { result := .error "video_url required"
        invoked := []
        workspaceCreated := false
        workspaceExistsAfter := false
        finalArtifact := none } ∧
    (handler "/tmp/job" { video_url := some "" } c7World).invoked = [] := by
  refine ⟨missing_video_url_rejected "/tmp/job" { video_url := none } c7World
    (Or.inl rfl), ?_⟩
  rw [missing_video_url_rejected "/tmp/job" { video_url := some "" } c7World
    (Or.inr rfl)]

lemma dropWhile_head_not {α : Type} (p : α → Bool) :
    ∀ cs : List α, cs.dropWhile p = [] ∨
      ∃ c rest, cs.dropWhile p = c :: rest ∧ p c = false := by
  intro cs
  induction cs with
  | nil => left; rfl
  | cons a rest ih =>
    by_cases h : p a
    · simpa [List.dropWhile_cons, h] using ih
    · right
      exact ⟨a, rest, by simp [List.dropWhile_cons, h], by simp [h]⟩

/-- C9: Publish with a nonempty destination uploads and returns the
destination URI truncated at its first `'?'` — the returned string is a
prefix of the URI, contains no `'?'`, and what was removed is either
nothing or starts with the `'?'` that began the query string.  With no
destination, Publish returns the local descriptor embedding the
artifact's byte size. -/
theorem upload_result_spec (fp u : String) (put : Except String Unit)
    (getsize : String → Nat) :
    (u ≠ "" → put = .ok () →
      upload_result fp u put getsize = .ok (stripQuery u) ∧
      (∀ c ∈ (stripQuery u).toList, c ≠ '?') ∧
      u.toList = (stripQuery u).toList
        ++ u.toList.dropWhile (fun c => c ≠ '?') ∧
      (u.toList.dropWhile (fun c => c ≠ '?') = [] ∨
        ∃ rest, u.toList.dropWhile (fun c => c ≠ '?') = '?' :: rest)) ∧
    (u = "" →
      upload_result fp u put getsize =
        .ok ("file://" ++ fp ++ " (" ++ toString (getsize fp) ++ " bytes)")) := by
  constructor
  · intro hu hput
    subst hput
    refine ⟨upload_result_ok_of_put fp u getsize hu, ?_, ?_, ?_⟩
    · intro c hc
      have : (stripQuery u).toList = u.toList.takeWhile (fun c => c ≠ '?') := rfl
      rw [this] at hc
      simpa using List.mem_takeWhile_imp hc
    · have : (stripQuery u).toList = u.toList.takeWhile (fun c => c ≠ '?') := rfl
      rw [this, List.takeWhile_append_dropWhile]
    · rcases dropWhile_head_not (fun c => c ≠ '?') u.toList with h | ⟨c, rest, hr, hc⟩
      · exact Or.inl h
      · refine Or.inr ⟨rest, ?_⟩
        rw [hr]
        have hcq : c = '?' := by simpa using hc
        rw [hcq]
  · intro hu
    subst hu
    exact upload_result_local fp put getsize

/-- C9 witness: a signed URL loses its query string; with no destination
the byte-size descriptor is returned. -/
theorem upload_result_spec_witness :
    upload_result "/tmp/job/out.mp4" "https://b/up.mp4?sig=secret" (.ok ())
      (fun _ => 5) = .ok "https://b/up.mp4" ∧
    upload_result "/tmp/job/out.mp4" "" (.ok ()) (fun _ => 5) =
      .ok "file:///tmp/job/out.mp4 (5 bytes)" := by
  have h := upload_result_spec "/tmp/job/out.mp4" "https://b/up.mp4?sig=secret"
    (.ok ()) (fun _ => 5)
  have h2 := upload_result_spec "/tmp/job/out.mp4" "" (.ok ()) (fun _ => 5)
  exact ⟨(h.1 (by decide) rfl).1, h2.2 rfl⟩

/-- C10: the Audio Enhance soft-fail covers only a non-zero exit code.
When the ffmpeg subprocess exceeds its 3600-second budget,
`subprocess.run` raises `TimeoutExpired`, which `enhance_audio` does not
catch: the handler aborts with that error and Publish never runs — no
fallback to the pre-enhancement artifact happens. -/
theorem audio_timeout_fatal {α : Type} (tmpdir : String) (inp : JobInput)
    (url stderr : String) (w : World α)
    (hurl : inp.video_url = some url) (hne : url ≠ "")
    (hf : w.fetch url = .ok ()) (hp : w.upscaleProc = .completed 0 stderr)
    (hface : inp.face_restore.getD true = true →
      exceptOk (restore_faces_video w.enhance w.upscaledVideo).result = true)
    (hae : inp.audio_enhance.getD true = true)
    (hap : w.audioProc = .timedOut) :
    (∀ p q, enhance_audio p q .timedOut =
      .error "subprocess.TimeoutExpired: ffmpeg timed out after 3600 seconds") ∧
    (handler tmpdir inp w).result =
      .error "subprocess.TimeoutExpired: ffmpeg timed out after 3600 seconds" ∧
    ∀ u2, StageCall.publish u2 ∉ (handler tmpdir inp w).invoked := by
  refine ⟨fun p q => rfl, ?_⟩
  rw [handler_valid_url tmpdir inp url w hurl hne,
    handlerJob_upscale_ok tmpdir url inp w stderr hf hp]
  cases hfr : inp.face_restore.getD true with
  | false =>
    rw [faceStep_skip, hae, audioStep_timeout tmpdir _ _ _ _ _ w hap]
    exact ⟨rfl, fun u2 => by simp [erroredOutcome]⟩
  | true =>
    have hok := hface hfr
    cases hres : (restore_faces_video w.enhance w.upscaledVideo).result with
    | error e2 => rw [hres] at hok; simp [exceptOk] at hok
    | ok out =>
      rw [faceStep_ok _ _ _ _ _ _ w out hres, hae,
        audioStep_timeout tmpdir _ _ _ _ _ w hap]
      exact ⟨rfl, fun u2 => by simp [erroredOutcome]⟩

/-- The external world of the C10 witness run: the audio filter hits its
timeout while everything else succeeds. -/
def c10World : World Nat :=
  { fetch := fun _ => .ok ()
    upscaleProc := .completed 0 ""
    upscaledVideo := ⟨30, 64, 48, [1]⟩
    enhance := fun n => .ok (n + 1)
    audioProc := .timedOut
    put := .ok ()
    getsize := fun _ => 11 }

/-- The job input of the C10 witness run. -/
def c10Input : JobInput := { video_url := some "https://x/in.mp4" }

/-- C10 witness: the concrete job aborts with the timeout error and
Publish is never invoked. -/
theorem audio_timeout_fatal_witness :
    (handler "/tmp/job" c10Input c10World).result =
      .error "subprocess.TimeoutExpired: ffmpeg timed out after 3600 seconds" ∧
    StageCall.publish "" ∉ (handler "/tmp/job" c10Input c10World).invoked := by
  have h := audio_timeout_fatal "/tmp/job" c10Input "https://x/in.mp4" ""
    c10World rfl (by decide) rfl rfl (fun _ => rfl) rfl rfl
  exact ⟨h.2.1, h.2.2 ""⟩
